import Mathlib

/-!
Verification of the `recipe-app-api` core app: the custom user model
(`app/core/models.py`), its admin registration (`app/core/admin.py`) and the
database-readiness waiter (`wait_for_db` management command).

Machine strings are modelled as Lean `String` / `List Char`; the database is
an explicit list of user records threaded through the factory operations;
exceptions become `Except`.
-/

/-! ## Password storage (model of the framework collaborator)

`AbstractBaseUser.set_password` delegates to the framework's `make_password`:
a real raw password is stored as a salted hash that `check_password` matches
only against the original plaintext, while `set_password(None)` stores an
unusable password that `check_password` rejects for every candidate.  We model
the hash of a raw password as an injective constructor application. -/

inductive StoredPassword where
  | hashed (raw : String)
  | unusable
deriving DecidableEq, Repr

/-- Model of `AbstractBaseUser.set_password`: `some raw` is hashed, `none`
(the Python `None`) yields an unusable password. -/
def set_password : Option String → StoredPassword
  | some raw => StoredPassword.hashed raw
  | none => StoredPassword.unusable

/-- Model of `AbstractBaseUser.check_password`: true exactly when the stored
value is the hash of the candidate; always false on an unusable password. -/
def check_password (raw : String) : StoredPassword → Bool
  | StoredPassword.hashed p => raw == p
  | StoredPassword.unusable => false

/-! ## Email normalization (`BaseUserManager.normalize_email`)

The framework helper strips surrounding whitespace, splits at the LAST `@`,
and lower-cases the domain part; a string with no `@` is returned unchanged. -/

/-- Python `str.strip` whitespace set (ASCII): space, tab, LF, CR, VT, FF. -/
def isPySpace (c : Char) : Bool :=
  c = ' ' || c = '\t' || c = '\n' || c = '\r' || c.toNat = 11 || c.toNat = 12

/-- Strip `isPySpace` characters from both ends, as Python `str.strip()`. -/
def pyStrip (cs : List Char) : List Char :=
  ((cs.dropWhile isPySpace).reverse.dropWhile isPySpace).reverse

/-- Python `str.lower` restricted to ASCII letters (all inputs in this
development are ASCII). -/
def lowerChar (c : Char) : Char :=
  if 65 ≤ c.toNat && c.toNat ≤ 90 then Char.ofNat (c.toNat + 32) else c

/-- `cs.rsplit("@", 1)` on a character list: split at the last `@`,
returning `none` when there is no `@` (Python raises `ValueError`). -/
def rsplitAt : List Char → Option (List Char × List Char)
  | [] => none
  | c :: cs =>
    match rsplitAt cs with
    | some (l, r) => some (c :: l, r)
    | none => if c = '@' then some ([], cs) else none

/-- Model of `BaseUserManager.normalize_email` at the character-list level:
strip whitespace, split at the last `@`; on success rebuild with the domain
lower-cased, otherwise return the input unchanged. -/
def normalizeEmailCore (cs : List Char) : List Char :=
  match rsplitAt (pyStrip cs) with
  | some (l, r) => l ++ '@' :: r.map lowerChar
  | none => cs

/-- Model of `BaseUserManager.normalize_email`. -/
def normalize_email (email : String) : String :=
  ⟨normalizeEmailCore email.data⟩

/-! ## The `User` model and `UserManager` (`app/core/models.py`) -/

/-- The `User` row: `email`, `name`, `is_active`, `is_staff` are declared in
`models.py`; `is_superuser` comes from `PermissionsMixin` and `password`,
`last_login` from `AbstractBaseUser`. -/
structure User where
  email : String
  name : String
  is_active : Bool
  is_staff : Bool
  is_superuser : Bool
  password : StoredPassword
  last_login : Option Nat
deriving DecidableEq, Repr

/-- The database table of users; `save` on a new instance appends a row. -/
abbrev UserDb := List User

/-- `UserManager.create_user`: reject an empty email with `ValueError`,
otherwise build the instance with the normalized email (field defaults
`is_active=True`, `is_staff=False`, `is_superuser=False`, `last_login=None`),
set the password (Python default `password=None` is `none` here, `name` is the
`extra_fields` entry, defaulting to the CharField default `""`), save it, and
return it. -/
def create_user (db : UserDb) (email : String) (password : Option String)
    (name : String) : Except String (UserDb × User) :=
  if email = "" then
    Except.error "User must have an email address."
  else
    let user : User :=
      { email := normalize_email email
        name := name
        is_active := true
        is_staff := false
        is_superuser := false
        password := set_password password
        last_login := none }
    Except.ok (db ++ [user], user)

/-- `UserManager.create_superuser`: delegate to `create_user`, then set
`is_staff` and `is_superuser` and save the updated row. -/
def create_superuser (db : UserDb) (email : String) (password : String) :
    Except String (UserDb × User) :=
  match create_user db email (some password) "" with
  | Except.error e => Except.error e
  | Except.ok (db1, user) =>
    let u2 : User := { user with is_staff := true, is_superuser := true }
    Except.ok (db1.map (fun u => if u.email = u2.email then u2 else u), u2)

/-- The database state after a `create_user` call: on an exception the state
is unchanged, on success it is the saved table. -/
def dbAfterCreateUser (db : UserDb) (email : String) (password : Option String)
    (name : String) : UserDb :=
  match create_user db email password name with
  | Except.ok (db2, _) => db2
  | Except.error _ => db

/-! ## Database-readiness waiter (`wait_for_db` management command)

Modelled from the spec: the management command `wait_for_db` itself is not
among the provided source files (only its tests are), so its loop is modelled
from the specification — repeatedly invoke the connectivity probe
`check(databases=['default'])`; on either connectivity-failure error kind
(driver-level `Psycopg2Error` or framework-level `OperationalError`) sleep a
fixed 1 time unit and retry unconditionally; return once the probe succeeds. -/

/-- The two connectivity-failure error kinds the probe may raise. -/
inductive DbError where
  | psycopg2Error
  | operationalError
deriving DecidableEq, Repr

/-- One probe invocation either succeeds or raises a connectivity error. -/
inductive ProbeOutcome where
  | ok
  | err (e : DbError)
deriving DecidableEq, Repr

/-- Whether a probe outcome is a success. -/
def ProbeOutcome.isOk : ProbeOutcome → Bool
  | ProbeOutcome.ok => true
  | ProbeOutcome.err _ => false

/-- Observable side effects of the waiter: a probe invocation carrying its
`databases` argument, or a sleep carrying its duration in time units. -/
inductive Event where
  | check (databases : List String)
  | sleep (seconds : Nat)
deriving DecidableEq, Repr

/-- Modelled from the spec: the waiter loop, driven by the outcome stream
`probe` (the outcome of the i-th invocation), starting at invocation `i`,
with `fuel` bounding how many invocations we are willing to unfold; `none`
means the loop has not returned within `fuel` invocations. -/
def waitEvents (probe : Nat → ProbeOutcome) (i : Nat) : Nat → Option (List Event)
  | 0 => none
  | fuel + 1 =>
    match probe i with
    | ProbeOutcome.ok => some [Event.check ["default"]]
    | ProbeOutcome.err _ =>
      (waitEvents probe (i + 1) fuel).map
        (fun evs => Event.check ["default"] :: Event.sleep 1 :: evs)

/-- Modelled from the spec: the `wait_for_db` command entry point — run the
waiter loop from the first invocation. -/
def wait_for_db (probe : Nat → ProbeOutcome) (fuel : Nat) : Option (List Event) :=
  waitEvents probe 0 fuel

/-- Number of probe invocations recorded in an event trace. -/
def checkCount (evs : List Event) : Nat :=
  evs.countP (fun e => match e with | Event.check _ => true | _ => false)

/-- Number of sleeps recorded in an event trace. -/
def sleepCount (evs : List Event) : Nat :=
  evs.countP (fun e => match e with | Event.sleep _ => true | _ => false)

/-- The event trace of `n` failed attempts: each failed probe invocation is
followed by one fixed 1-unit sleep. -/
def failEvents : Nat → List Event
  | 0 => []
  | n + 1 => Event.check ["default"] :: Event.sleep 1 :: failEvents n

/-- The full trace of a run with exactly `k` failures before the success. -/
def eventSeq (k : Nat) : List Event :=
  failEvents k ++ [Event.check ["default"]]

/-- The probe stream of `test_wait_for_db_delay`: two `Psycopg2Error`, three
`OperationalError`, then success. -/
def testDelayProbe (n : Nat) : ProbeOutcome :=
  if n < 2 then ProbeOutcome.err DbError.psycopg2Error
  else if n < 5 then ProbeOutcome.err DbError.operationalError
  else ProbeOutcome.ok

/-! ## Admin registration (`app/core/admin.py`) -/

namespace UserAdmin

/-- `UserAdmin.ordering`. -/
def ordering : List String := ["id"]

/-- `UserAdmin.list_display`. -/
def list_display : List String := ["email", "name"]

/-- `UserAdmin.fieldsets`: each section is an optional title with its field
names. -/
def fieldsets : List (Option String × List String) :=
  [(none, ["email", "password"]),
   (some "Permissions", ["is_active", "is_staff", "is_superuser"]),
   (some "Important dates", ["last_login"])]

/-- `UserAdmin.readonly_fields`. -/
def readonly_fields : List String := ["last_login"]

/-- `UserAdmin.add_fieldsets`: each section is an optional title, its CSS
classes, and its field names. -/
def add_fieldsets : List (Option String × List String × List String) :=
  [(none, (["wide"],
    ["email", "password1", "password2", "name",
     "is_active", "is_staff", "is_superuser"]))]

end UserAdmin

/-! ## Helper lemmas -/

theorem rsplitAt_eq_none (cs : List Char) (h : '@' ∉ cs) : rsplitAt cs = none := by
  induction cs with
  | nil => rfl
  | cons c cs ih =>
    have hc : ¬(c = '@') := by intro hh; exact h (by simp [hh])
    have hcs : '@' ∉ cs := by intro hh; exact h (List.mem_cons_of_mem _ hh)
    simp [rsplitAt, ih hcs, hc]

theorem rsplitAt_append (lc d : List Char) (hd : '@' ∉ d) :
    rsplitAt (lc ++ '@' :: d) = some (lc, d) := by
  induction lc with
  | nil => simp [rsplitAt, rsplitAt_eq_none d hd]
  | cons c lc ih => simp [rsplitAt, ih]

theorem normalizeEmailCore_split (lc d : List Char) (hd : '@' ∉ d)
    (hs : pyStrip (lc ++ '@' :: d) = lc ++ '@' :: d) :
    normalizeEmailCore (lc ++ '@' :: d) = lc ++ '@' :: d.map lowerChar := by
  unfold normalizeEmailCore
  rw [hs, rsplitAt_append lc d hd]

theorem mkString_ne_empty (c : Char) (lc cs : List Char) :
    (⟨lc ++ c :: cs⟩ : String) ≠ "" := by
  intro hh
  have hdata := congrArg String.data hh
  simp at hdata

/-! ## Claim theorems: user manager -/

/-- C1: for every non-empty email string and every password string,
`create_user` returns a saved user whose stored email equals the input email
after normalization, and for which `check_password` returns true for the
original plaintext password and false for every other string. -/
theorem create_user_correct (db : UserDb) (email pw nm : String)
    (h : email ≠ "") :
    ∃ db2 user,
      create_user db email (some pw) nm = Except.ok (db2, user) ∧
      db2 = db ++ [user] ∧
      user.email = normalize_email email ∧
      check_password pw user.password = true ∧
      ∀ other : String, other ≠ pw → check_password other user.password = false := by
  unfold create_user
  rw [if_neg h]
  refine ⟨_, _, rfl, rfl, rfl, ?_, ?_⟩
  · simp [check_password, set_password]
  · intro other hne
    simp [check_password, set_password, hne]

theorem create_user_correct_witness :
    "test@gmail.com" ≠ "" ∧
    ∃ db2 user,
      create_user [] "test@gmail.com" (some "testpass123") "" =
        Except.ok (db2, user) ∧
      db2 = [] ++ [user] ∧
      user.email = normalize_email "test@gmail.com" ∧
      check_password "testpass123" user.password = true ∧
      ∀ other : String, other ≠ "testpass123" →
        check_password other user.password = false :=
  ⟨by decide, create_user_correct [] "test@gmail.com" "testpass123" "" (by decide)⟩

/-- C4: for every password value (and any prior database state), calling
`create_user` with an empty email raises `ValueError`, which propagates to the
caller, and no user is persisted: the state is unchanged on error. -/
theorem create_user_empty_email_error (db : UserDb) (pw : Option String)
    (nm : String) :
    create_user db "" pw nm = Except.error "User must have an email address." ∧
    dbAfterCreateUser db "" pw nm = db := by
  constructor <;> rfl

/-- C5: for every valid (non-empty) email and every password,
`create_superuser` returns a user whose `is_staff` and `is_superuser` flags
are both true simultaneously; the creation path never yields one without the
other. -/
theorem create_superuser_flags (db : UserDb) (email pw : String)
    (h : email ≠ "") :
    ∃ db2 user,
      create_superuser db email pw = Except.ok (db2, user) ∧
      user.is_staff = true ∧ user.is_superuser = true := by
  unfold create_superuser create_user
  rw [if_neg h]
  exact ⟨_, _, rfl, rfl, rfl⟩

theorem create_superuser_flags_witness :
    "test@example.com" ≠ "" ∧
    ∃ db2 user,
      create_superuser [] "test@example.com" "test123" = Except.ok (db2, user) ∧
      user.is_staff = true ∧ user.is_superuser = true :=
  ⟨by decide, create_superuser_flags [] "test@example.com" "test123" (by decide)⟩

/-- C10: the password of `create_user` defaults to `None`: with a non-empty
email and no password the call succeeds and returns a saved user carrying an
unusable password, for which `check_password` is false on every candidate. -/
theorem create_user_default_password (db : UserDb) (email nm : String)
    (h : email ≠ "") :
    ∃ db2 user,
      create_user db email none nm = Except.ok (db2, user) ∧
      db2 = db ++ [user] ∧
      user.password = StoredPassword.unusable ∧
      ∀ cand : String, check_password cand user.password = false := by
  unfold create_user
  rw [if_neg h]
  exact ⟨_, _, rfl, rfl, rfl, fun cand => rfl⟩

theorem create_user_default_password_witness :
    "test@example.org" ≠ "" ∧
    ∃ db2 user,
      create_user [] "test@example.org" none "" = Except.ok (db2, user) ∧
      db2 = [] ++ [user] ∧
      user.password = StoredPassword.unusable ∧
      ∀ cand : String, check_password cand user.password = false :=
  ⟨by decide, create_user_default_password [] "test@example.org" "" (by decide)⟩

/-- C3: for every two email inputs `local@d1` and `local@d2` that differ only
in the case of the domain portion (same domain up to letter case, no `@` in
the domain, no surrounding whitespace), `create_user` stores identical email
values: the local part's case is preserved and the domain is lower-cased. -/
theorem create_user_email_domain_case (db : UserDb) (lc d1 d2 : List Char)
    (hd1 : '@' ∉ d1) (hd2 : '@' ∉ d2)
    (hlow : d1.map lowerChar = d2.map lowerChar)
    (hs1 : pyStrip (lc ++ '@' :: d1) = lc ++ '@' :: d1)
    (hs2 : pyStrip (lc ++ '@' :: d2) = lc ++ '@' :: d2)
    (pw : Option String) (nm : String) :
    normalize_email ⟨lc ++ '@' :: d1⟩ = ⟨lc ++ '@' :: d1.map lowerChar⟩ ∧
    normalize_email ⟨lc ++ '@' :: d1⟩ = normalize_email ⟨lc ++ '@' :: d2⟩ ∧
    ∃ dbA dbB u1 u2,
      create_user db ⟨lc ++ '@' :: d1⟩ pw nm = Except.ok (dbA, u1) ∧
      create_user db ⟨lc ++ '@' :: d2⟩ pw nm = Except.ok (dbB, u2) ∧
      u1.email = u2.email := by
  have hn1 : normalize_email ⟨lc ++ '@' :: d1⟩ = ⟨lc ++ '@' :: d1.map lowerChar⟩ := by
    show (⟨normalizeEmailCore (lc ++ '@' :: d1)⟩ : String) = _
    rw [normalizeEmailCore_split lc d1 hd1 hs1]
  have hn2 : normalize_email ⟨lc ++ '@' :: d2⟩ = ⟨lc ++ '@' :: d2.map lowerChar⟩ := by
    show (⟨normalizeEmailCore (lc ++ '@' :: d2)⟩ : String) = _
    rw [normalizeEmailCore_split lc d2 hd2 hs2]
  have hne1 : (⟨lc ++ '@' :: d1⟩ : String) ≠ "" := mkString_ne_empty '@' lc d1
  have hne2 : (⟨lc ++ '@' :: d2⟩ : String) ≠ "" := mkString_ne_empty '@' lc d2
  have heq : normalize_email ⟨lc ++ '@' :: d1⟩ = normalize_email ⟨lc ++ '@' :: d2⟩ := by
    rw [hn1, hn2, hlow]
  refine ⟨hn1, heq, ?_⟩
  unfold create_user
  rw [if_neg hne1, if_neg hne2]
  exact ⟨_, _, _, _, rfl, rfl, heq⟩

theorem create_user_email_domain_case_witness :
    '@' ∉ ['E','X','A','M','P','L','E','.','C','O','M'] ∧
    ['E','X','A','M','P','L','E','.','C','O','M'].map lowerChar =
      ['e','x','a','m','p','l','e','.','c','o','m'].map lowerChar ∧
    (normalize_email ⟨['T','E','S','T','3'] ++ '@' ::
        ['E','X','A','M','P','L','E','.','C','O','M']⟩ =
      ⟨['T','E','S','T','3'] ++ '@' ::
        ['E','X','A','M','P','L','E','.','C','O','M'].map lowerChar⟩ ∧
     normalize_email ⟨['T','E','S','T','3'] ++ '@' ::
        ['E','X','A','M','P','L','E','.','C','O','M']⟩ =
      normalize_email ⟨['T','E','S','T','3'] ++ '@' ::
        ['e','x','a','m','p','l','e','.','c','o','m']⟩ ∧
     ∃ dbA dbB u1 u2,
      create_user [] ⟨['T','E','S','T','3'] ++ '@' ::
        ['E','X','A','M','P','L','E','.','C','O','M']⟩ (some "sample123") "" =
        Except.ok (dbA, u1) ∧
      create_user [] ⟨['T','E','S','T','3'] ++ '@' ::
        ['e','x','a','m','p','l','e','.','c','o','m']⟩ (some "sample123") "" =
        Except.ok (dbB, u2) ∧
      u1.email = u2.email) :=
  ⟨by decide, by decide,
    create_user_email_domain_case [] ['T','E','S','T','3']
      ['E','X','A','M','P','L','E','.','C','O','M']
      ['e','x','a','m','p','l','e','.','c','o','m']
      (by decide) (by decide) (by decide) (by decide) (by decide)
      (some "sample123") ""⟩

/-! ## Claim theorems: database-readiness waiter -/

/-- C6: when the probe succeeds on its first call, the waiter invokes the
probe exactly once, passing exactly the single `default` database connection,
and performs no sleep. -/
theorem wait_for_db_ready (probe : Nat → ProbeOutcome) (fuel : Nat)
    (hp : probe 0 = ProbeOutcome.ok) (hf : 0 < fuel) :
    wait_for_db probe fuel = some [Event.check ["default"]] ∧
    checkCount [Event.check ["default"]] = 1 ∧
    sleepCount [Event.check ["default"]] = 0 := by
  obtain ⟨f, rfl⟩ := Nat.exists_eq_succ_of_ne_zero (Nat.pos_iff_ne_zero.mp hf)
  refine ⟨?_, rfl, rfl⟩
  simp [wait_for_db, waitEvents, hp]

theorem wait_for_db_ready_witness :
    (fun _ : Nat => ProbeOutcome.ok) 0 = ProbeOutcome.ok ∧ 0 < 1 ∧
    (wait_for_db (fun _ => ProbeOutcome.ok) 1 = some [Event.check ["default"]] ∧
     checkCount [Event.check ["default"]] = 1 ∧
     sleepCount [Event.check ["default"]] = 0) :=
  ⟨rfl, by decide, wait_for_db_ready (fun _ => ProbeOutcome.ok) 1 rfl (by decide)⟩

/-- C2: on the probe sequence of two driver-level errors, three
framework-level errors, then success, the waiter invokes the probe exactly
six times, each time with the single `default` connection, and performs one
1-unit sleep after each of the five failed attempts before returning. -/
theorem wait_for_db_delay_trace :
    wait_for_db testDelayProbe 6 =
      some [Event.check ["default"], Event.sleep 1,
            Event.check ["default"], Event.sleep 1,
            Event.check ["default"], Event.sleep 1,
            Event.check ["default"], Event.sleep 1,
            Event.check ["default"], Event.sleep 1,
            Event.check ["default"]] ∧
    (wait_for_db testDelayProbe 6).map checkCount = some 6 ∧
    (wait_for_db testDelayProbe 6).map sleepCount = some 5 := by
  refine ⟨?_, ?_, ?_⟩ <;> decide

theorem waitEvents_some_ok (probe : Nat → ProbeOutcome) :
    ∀ fuel i evs, waitEvents probe i fuel = some evs →
      ∃ k, probe k = ProbeOutcome.ok := by
  intro fuel
  induction fuel with
  | zero => intro i evs h; simp [waitEvents] at h
  | succ f ih =>
    intro i evs h
    cases hp : probe i with
    | ok => exact ⟨i, hp⟩
    | err e =>
      rw [waitEvents, hp] at h
      simp only [Option.map_eq_some'] at h
      obtain ⟨evs2, h2, -⟩ := h
      exact ih (i + 1) evs2 h2

theorem waitEvents_never (probe : Nat → ProbeOutcome)
    (h : ∀ k, probe k ≠ ProbeOutcome.ok) :
    ∀ fuel i, waitEvents probe i fuel = none := by
  intro fuel
  induction fuel with
  | zero => intro i; rfl
  | succ f ih =>
    intro i
    cases hp : probe i with
    | ok => exact absurd hp (h i)
    | err e => simp [waitEvents, hp, ih]

theorem waitEvents_exact (probe : Nat → ProbeOutcome) :
    ∀ k i fuel, probe (i + k) = ProbeOutcome.ok →
      (∀ j, j < k → probe (i + j) ≠ ProbeOutcome.ok) →
      k < fuel → waitEvents probe i fuel = some (eventSeq k) := by
  intro k
  induction k with
  | zero =>
    intro i fuel hok hmin hf
    cases fuel with
    | zero => omega
    | succ f =>
      simp only [Nat.add_zero] at hok
      simp [waitEvents, hok, eventSeq, failEvents]
  | succ n ih =>
    intro i fuel hok hmin hf
    cases fuel with
    | zero => omega
    | succ f =>
      have h0 : probe i ≠ ProbeOutcome.ok := by
        have := hmin 0 (Nat.succ_pos n)
        simpa using this
      cases hp : probe i with
      | ok => exact absurd hp h0
      | err e =>
        have hok2 : probe ((i + 1) + n) = ProbeOutcome.ok := by
          rw [show (i + 1) + n = i + (n + 1) by omega]
          exact hok
        have hmin2 : ∀ j, j < n → probe ((i + 1) + j) ≠ ProbeOutcome.ok := by
          intro j hj
          rw [show (i + 1) + j = i + (j + 1) by omega]
          exact hmin (j + 1) (Nat.succ_lt_succ hj)
        have hf2 : n < f := by omega
        simp [waitEvents, hp, ih (i + 1) f hok2 hmin2 hf2, eventSeq, failEvents]

/-- C7: the waiter returns iff the probe outcome stream eventually contains a
success; it returns right after the first success with k failed attempts each
followed by one fixed 1-unit sleep (no backoff growth), and on an everywhere-
failing probe it never returns, whatever bound is allowed (no maximum attempt
count, no timeout). -/
theorem wait_for_db_liveness (probe : Nat → ProbeOutcome) :
    ((∃ fuel evs, wait_for_db probe fuel = some evs) ↔
      ∃ k, probe k = ProbeOutcome.ok) ∧
    ((∀ k, probe k ≠ ProbeOutcome.ok) →
      ∀ fuel, wait_for_db probe fuel = none) ∧
    (∀ k, probe k = ProbeOutcome.ok →
      (∀ j, j < k → probe j ≠ ProbeOutcome.ok) →
      ∀ fuel, k < fuel → wait_for_db probe fuel = some (eventSeq k)) := by
  refine ⟨⟨?_, ?_⟩, ?_, ?_⟩
  · rintro ⟨fuel, evs, h⟩
    exact waitEvents_some_ok probe fuel 0 evs h
  · intro hex
    have m := Nat.find_spec hex
    refine ⟨Nat.find hex + 1, eventSeq (Nat.find hex), ?_⟩
    exact waitEvents_exact probe (Nat.find hex) 0 (Nat.find hex + 1)
      (by simpa using m)
      (fun j hj => by simpa using Nat.find_min hex hj)
      (Nat.lt_succ_self _)
  · intro h fuel
    exact waitEvents_never probe h fuel 0
  · intro k hok hmin fuel hf
    exact waitEvents_exact probe k 0 fuel (by simpa using hok)
      (fun j hj => by simpa using hmin j hj) hf

theorem wait_for_db_liveness_witness :
    wait_for_db testDelayProbe 6 = some (eventSeq 5) :=
  (wait_for_db_liveness testDelayProbe).2.2 5 (by decide)
    (fun j hj => by interval_cases j <;> decide) 6 (by decide)

/-- The delay-test failure prefix with driver-level errors only. -/
def probeDriverKind (n : Nat) : ProbeOutcome :=
  if n < 2 then ProbeOutcome.err DbError.psycopg2Error else ProbeOutcome.ok

/-- The same failure prefix with framework-level errors instead. -/
def probeFrameworkKind (n : Nat) : ProbeOutcome :=
  if n < 2 then ProbeOutcome.err DbError.operationalError else ProbeOutcome.ok

/-- C8: for every two probe outcome streams that agree on WHERE failures
occur but may differ in WHICH of the two connectivity-error kinds each
failure carries, the waiter's observable behavior is identical: the whole
event traces coincide, hence so do the probe-invocation and sleep counts. -/
theorem wait_for_db_error_kind_blind (p1 p2 : Nat → ProbeOutcome)
    (h : ∀ i, (p1 i).isOk = (p2 i).isOk) (fuel : Nat) :
    wait_for_db p1 fuel = wait_for_db p2 fuel ∧
    (wait_for_db p1 fuel).map checkCount = (wait_for_db p2 fuel).map checkCount ∧
    (wait_for_db p1 fuel).map sleepCount = (wait_for_db p2 fuel).map sleepCount := by
  suffices hh : ∀ fuel i, waitEvents p1 i fuel = waitEvents p2 i fuel by
    have htr : wait_for_db p1 fuel = wait_for_db p2 fuel := hh fuel 0
    exact ⟨htr, by rw [htr], by rw [htr]⟩
  intro fuel
  induction fuel with
  | zero => intro i; rfl
  | succ f ih =>
    intro i
    have hi := h i
    cases h1 : p1 i with
    | ok =>
      cases h2 : p2 i with
      | ok => simp [waitEvents, h1, h2]
      | err e => rw [h1, h2] at hi; simp [ProbeOutcome.isOk] at hi
    | err e =>
      cases h2 : p2 i with
      | ok => rw [h1, h2] at hi; simp [ProbeOutcome.isOk] at hi
      | err e2 => simp [waitEvents, h1, h2, ih]

theorem wait_for_db_error_kind_blind_witness :
    wait_for_db probeDriverKind 6 = wait_for_db probeFrameworkKind 6 ∧
    (wait_for_db probeDriverKind 6).map checkCount =
      (wait_for_db probeFrameworkKind 6).map checkCount ∧
    (wait_for_db probeDriverKind 6).map sleepCount =
      (wait_for_db probeFrameworkKind 6).map sleepCount :=
  wait_for_db_error_kind_blind probeDriverKind probeFrameworkKind
    (fun i => by
      by_cases hi : i < 2 <;>
        simp [probeDriverKind, probeFrameworkKind, hi, ProbeOutcome.isOk])
    6

/-! ## Claim theorems: admin registration -/

/-- C9: the `UserAdmin` registration declares list-display columns exactly
`[email, name]`; its edit-form fieldsets group email+password, then
`is_active`/`is_staff`/`is_superuser`, then `last_login`, with `last_login`
the only read-only field; and its create-form field set is exactly
`{email, password1, password2, name, is_active, is_staff, is_superuser}`. -/
theorem user_admin_registration :
    UserAdmin.list_display = ["email", "name"] ∧
    UserAdmin.fieldsets.map Prod.snd =
      [["email", "password"],
       ["is_active", "is_staff", "is_superuser"],
       ["last_login"]] ∧
    UserAdmin.readonly_fields = ["last_login"] ∧
    (UserAdmin.add_fieldsets.map (fun s => s.2.2)).flatten =
      ["email", "password1", "password2", "name",
       "is_active", "is_staff", "is_superuser"] := by
  refine ⟨rfl, rfl, rfl, rfl⟩
